import Mathlib

/-!
Shallow embedding of `paddlenlp/experimental/transformers/qwen/modeling.py`
(the Qwen causal-LM inference wrapper) and verification of claims about it.

Modelling conventions:
* Python `None` for tensor-valued variables is `STensor.pyNone` (or `Option` at
  argument level); external operators (`get_padding_offset`,
  `fused_get_rotary_embedding`, the fused transformer block, `wte`, `ln_f`,
  `lm_head`, the criterion) are opaque: their results are symbolic `STensor`
  values, and every call into one is recorded in a trace.
* Boolean 4-D tensors are a shape together with an entry function; integer
  4-D tensors likewise.  `paddle.finfo(dtype).min` is the `finfoMin` field of
  the configuration.  Float scalars that the code only ever combines with
  small integers (`1e4`, masks of zeros and ones) are modelled as `Int`,
  where they are exact.
* Exceptions are `Except PyError`; Python `len` is `pyLen`, which raises
  `TypeError` on an `int`, exactly as CPython does.
-/

/-- Python exception values raised by the wrapper. -/
inductive PyError where
  | valueError (msg : String)
  | typeError (msg : String)
deriving DecidableEq, Repr

/-- A fragment of Python runtime values, enough to give `len` its semantics. -/
inductive PyObj where
  | int (n : Int)
  | pylist (xs : List PyObj)
deriving Repr

/-- Python built-in `len`: defined on sequences, raises `TypeError` on `int`.
`self.config.num_hidden_layers` is an `int`, so `len` of it raises. -/
def pyLen : PyObj → Except PyError Nat
  | PyObj.int _ => Except.error (PyError.typeError ("object of type int has no len"))
  | PyObj.pylist xs => Except.ok xs.length

/-- Symbolic tensor values flowing through `QWenInferenceModel.forward` and
`QWenForCausalLMInferenceModel.forward`.  Opaque external computations keep
their arguments (where a claim needs them) as constructor data. -/
inductive STensor where
  | pyNone
  | inputIds
  | embedsReshaped (rows cols : Nat)
  | wte (ids : STensor)
  | gpoIds
  | gpoCumOffsets
  | gpoPaddingOffset
  | rope (position_offset : Nat)
  | blockOut
  | lnf (x : STensor)
  | reshapeOut (x : STensor) (b s : Nat)
  | lmHead (x : STensor) (tensor_parallel_output : Bool)
  | criterion (logits labels : STensor)
  | leaf (n : Nat)
deriving DecidableEq, Repr

instance : Inhabited STensor := ⟨STensor.pyNone⟩

/-- A boolean tensor of shape `[b, c, s, t]` given by its entry function. -/
structure BoolTensor4 where
  b : Nat
  c : Nat
  s : Nat
  t : Nat
  entry : Nat → Nat → Nat → Nat → Bool

/-- An integer-valued tensor of shape `[b, c, s, t]` given by its entries. -/
structure ValTensor4 (α : Type) where
  b : Nat
  c : Nat
  s : Nat
  t : Nat
  entry : Nat → Nat → Nat → Nat → α

instance : Inhabited (ValTensor4 Int) := ⟨⟨0, 0, 0, 0, fun _ _ _ _ => 0⟩⟩

/-- `paddle.ones([b, c, s, t], dtype="bool")`. -/
def onesBool4 (b c s t : Nat) : BoolTensor4 :=
  { b := b, c := c, s := s, t := t, entry := fun _ _ _ _ => true }

/-- `paddle.tril`: keep the lower triangle (inclusive of the diagonal) of the
last two axes, zeroing everything above it. -/
def paddleTril (x : BoolTensor4) : BoolTensor4 :=
  { x with entry := fun i j q k => if k ≤ q then x.entry i j q k else false }

/-- `paddle.concat([x, y], axis=-1)`. -/
def concatLast (x y : BoolTensor4) : BoolTensor4 :=
  { b := x.b, c := x.c, s := x.s, t := x.t + y.t,
    entry := fun i j q k => if k < x.t then x.entry i j q k else y.entry i j q (k - x.t) }

/-- Elementwise `&` of boolean tensors. -/
def andBool4 (x y : BoolTensor4) : BoolTensor4 :=
  { b := x.b, c := x.c, s := x.s, t := x.t,
    entry := fun i j q k => x.entry i j q k && y.entry i j q k }

/-- `paddle.zeros(shape_of m, dtype)`. -/
def zerosLike (m : BoolTensor4) : ValTensor4 Int :=
  { b := m.b, c := m.c, s := m.s, t := m.t, entry := fun _ _ _ _ => 0 }

/-- `paddle.full_like(m, v, dtype)`. -/
def fullLike (m : BoolTensor4) (v : Int) : ValTensor4 Int :=
  { b := m.b, c := m.c, s := m.s, t := m.t, entry := fun _ _ _ _ => v }

/-- `paddle.where(cond, x, y)`. -/
def paddleWhere (cond : BoolTensor4) (x y : ValTensor4 Int) : ValTensor4 Int :=
  { b := cond.b, c := cond.c, s := cond.s, t := cond.t,
    entry := fun i j q k =>
      if cond.entry i j q k then x.entry i j q k else y.entry i j q k }

/-- The `padding_mask` argument of `get_masks`: either Python `None` or a
boolean tensor of dimension 2, 3 or 4 (the code branches on
`len(padding_mask.shape)`).  A 2-D mask has shape `[b, s + p]`, a 3-D mask
`[b, tgt, src]`; entries are given as functions of the indices. -/
inductive PaddingMask where
  | noMask
  | mask2 (m : Nat → Nat → Bool)
  | mask3 (m : Nat → Nat → Nat → Bool)
  | mask4 (m : BoolTensor4)

namespace QWenInferenceModel

/-- `QWenInferenceModel.get_masks` (modeling.py lines 202-228): build the
causal mask by `tril` of ones, prepend `past_length` columns of ones when
`past_length > 0`, broadcast the padding mask to 4-D, and take the
conjunction. -/
def get_masks (batch_size seq_length past_length : Nat)
    (padding_mask : PaddingMask) : BoolTensor4 :=
  -- casual mask
  let casual_mask := paddleTril (onesBool4 batch_size 1 seq_length seq_length)
  let casual_mask :=
    if 0 < past_length then
      concatLast (onesBool4 batch_size 1 seq_length past_length) casual_mask
    else
      casual_mask
  -- seq_mask
  let pm : BoolTensor4 :=
    match padding_mask with
    | PaddingMask.noMask =>
        onesBool4 batch_size 1 seq_length (seq_length + past_length)
    | PaddingMask.mask2 m =>
        -- unsqueeze(axis=[1, 2]).expand([b, 1, s, s+p]).astype("bool")
        { b := batch_size, c := 1, s := seq_length, t := seq_length + past_length,
          entry := fun i _ _ k => m i k }
    | PaddingMask.mask3 m =>
        -- unsqueeze(1).astype("bool")
        { b := batch_size, c := 1, s := seq_length, t := seq_length + past_length,
          entry := fun i _ q k => m i q k }
    | PaddingMask.mask4 m => m
  andBool4 casual_mask pm

end QWenInferenceModel

/-- Inclusive prefix sums starting from an accumulator. -/
def cumsumFrom (acc : Int) : List Int → List Int
  | [] => []
  | x :: xs => (acc + x) :: cumsumFrom (acc + x) xs

/-- `paddle.cumsum` over a 1-D integer tensor (inclusive prefix sums). -/
def cumsum (xs : List Int) : List Int := cumsumFrom 0 xs

/-- `paddle.max` over a 1-D integer tensor; meaningful for non-empty input. -/
def paddleMax : List Int → Int
  | [] => 0
  | [x] => x
  | x :: y :: xs => max x (paddleMax (y :: xs))

namespace QWenInferenceModel

/-- The tensor `paddle.cumsum(paddle.max(seq_lens_this_time) - seq_lens_this_time)`
built by `remove_padding` (modeling.py line 195). -/
def cum_offsets_now (seq_lens_this_time : List Int) : List Int :=
  cumsum (seq_lens_this_time.map (fun x => paddleMax seq_lens_this_time - x))

/-- `paddle.sum(seq_lens_this_time)` (modeling.py line 196). -/
def token_num (seq_lens_this_time : List Int) : Int := seq_lens_this_time.sum

/-- `QWenInferenceModel.remove_padding` (modeling.py lines 194-200),
parameterised by the opaque external operator `get_padding_offset`, whose
three outputs are unpacked in the source as
`ids_remove_padding, cum_offsets, padding_offset` and returned as
`ids_remove_padding, padding_offset, cum_offsets`. -/
def remove_padding {α β : Type}
    (get_padding_offset : α → List Int → Int → List Int → β × β × β)
    (input_ids : α) (seq_lens_this_time : List Int) : β × β × β :=
  let t := get_padding_offset input_ids (cum_offsets_now seq_lens_this_time)
    (token_num seq_lens_this_time) seq_lens_this_time
  (t.1, t.2.2, t.2.1)

end QWenInferenceModel

/-- The relevant fields of `QWenConfig` plus model-level constants:
`finfoMin` stands for `paddle.finfo(hidden_states.dtype).min`. -/
structure Config where
  num_hidden_layers : Nat
  output_attentions : Bool
  output_hidden_states : Bool
  use_cache : Bool
  use_return_dict : Bool
  tensor_parallel_output : Bool
  tensor_parallel_degree : Nat
  finfoMin : Int
deriving DecidableEq, Repr

/-- The shape `[bsz, seqLen]` of an `input_ids` tensor. -/
structure IdsShape where
  bsz : Nat
  seqLen : Nat
deriving DecidableEq, Repr

/-- The shape `[bsz, seqLen, hidden]` of an `inputs_embeds` tensor. -/
structure EmbShape where
  bsz : Nat
  seqLen : Nat
  hidden : Nat
deriving DecidableEq, Repr

/-- The `kwargs["cache"]` value in the decoder phase: all the code reads from
it is `past_key_values[0][0].shape[1]`, kept here as `pastLen`. -/
structure CacheKV where
  pastLen : Nat
deriving DecidableEq, Repr

/-- Arguments of `QWenInferenceModel.forward`.  `Option` is Python `None`;
the `cache` field is the `kwargs["cache"]` entry.  `seq_len_encoder` and
`seq_len_decoder` are 1-D integer tensors. -/
structure Args where
  input_ids : Option IdsShape
  position_ids : Option STensor
  attention_mask : PaddingMask
  inputs_embeds : Option EmbShape
  use_cache : Option Bool
  cache_kvs : Option STensor
  pre_caches : Option STensor
  seq_len_encoder : Option (List Int)
  seq_len_decoder : Option (List Int)
  output_attentions : Option Bool
  output_hidden_states : Option Bool
  return_dict : Option Bool
  cache : Option CacheKV

/-- One call of the external operator `fused_get_rotary_embedding`
(modeling.py lines 307-309); the claim-relevant argument is the
`position_offset`. -/
structure RotCall where
  position_offset : Nat
deriving DecidableEq, Repr

/-- One call of the fused transformer block (modeling.py lines 312-325), with
the arguments the wrapper passes. -/
structure BlockCall where
  input_ids : STensor
  hidden_states : STensor
  cum_offsets : STensor
  padding_offset : STensor
  attn_mask : ValTensor4 Int
  caches : Option STensor
  pre_caches : Option STensor
  pre_caches_length : Nat
  seq_lens : Option (List Int)
  rotary_embs : STensor
  rotary_emb_dims : Nat
  time_step : Option Int

instance : Inhabited BlockCall :=
  ⟨⟨default, default, default, default, default, none, none, 0, none, default, 1, none⟩⟩

/-- An element of the tuple returned by `QWenInferenceModel.forward` when
`return_dict` is false.  The four constructors correspond to the four slots
of `[hidden_states, presents, all_hidden_states, all_self_attentions]` in
modeling.py line 334 (the code filters the `None` ones out). -/
inductive PyOut where
  | tensor (x : STensor)
  | presentsTup
  | hiddenStatesTup (xs : List STensor)
  | attnsTup
deriving DecidableEq, Repr

/-- The `BaseModelOutputWithPast` record (modeling.py lines 336-341). -/
structure BaseOut where
  last_hidden_state : STensor
  past_key_values : Option PyOut
  hidden_states : Option PyOut
  attentions : Option PyOut
deriving DecidableEq, Repr

/-- The value returned by a completed `QWenInferenceModel.forward` call. -/
inductive FwdOutput where
  | tuple (items : List PyOut)
  | modelOutput (o : BaseOut)
deriving DecidableEq, Repr

/-- The observable outcome of one `QWenInferenceModel.forward` call: the
returned value or raised exception, plus the trace of calls into the three
external operators. -/
structure Fwd where
  result : Except PyError FwdOutput
  rotaryCalls : List RotCall
  blockCalls : List BlockCall
  gpoCalls : Nat

/-- Outcome of a call that raises before reaching any external operator. -/
def errFwd (e : PyError) : Fwd :=
  { result := Except.error e, rotaryCalls := [], blockCalls := [], gpoCalls := 0 }

/-- The opaque external operator `get_padding_offset`, producing its three
outputs (in the operator order `ids_remove_padding, cum_offsets,
padding_offset`) as symbolic tensors. -/
def gpoSym : STensor → List Int → Int → List Int → STensor × STensor × STensor :=
  fun _ _ _ _ => (STensor.gpoIds, STensor.gpoCumOffsets, STensor.gpoPaddingOffset)

/-- The symbolic value held by the `input_ids` variable. -/
def idsVal : Option IdsShape → STensor
  | some _ => STensor.inputIds
  | none => STensor.pyNone

/-- `input_shape` as computed in modeling.py lines 263-267: the shape of
`input_ids` when given, else the leading two dims of `inputs_embeds` (the
`(0, 0)` fallback is unreachable past the argument-presence check). -/
def fwdInputShape (a : Args) : Nat × Nat :=
  match a.input_ids with
  | some t => (t.bsz, t.seqLen)
  | none =>
    match a.inputs_embeds with
    | some e => (e.bsz, e.seqLen)
    | none => (0, 0)

/-- `past_length` as computed in modeling.py lines 270-274. -/
def fwdPastLength (a : Args) : Nat :=
  match a.cache with
  | some c => c.pastLen
  | none => 0

namespace QWenInferenceModel

/-- Modeling.py lines 276-341 of `QWenInferenceModel.forward`: everything
after the `past_key_values` branch, given the resolved flags, the input
shape, the reshaped `inputs_embeds` value and `past_length`. -/
def forwardBody (cfg : Config) (a : Args) (input_shape : Nat × Nat)
    (inputs_embeds0 : STensor)
    (use_cache output_attentions output_hidden_states return_dict : Bool)
    (is_decoder : Bool) (past_length : Nat) : Fwd :=
  -- lines 276-281: the encoder phase removes padding; with `seq_len_encoder`
  -- absent, `paddle.max(None)` inside `remove_padding` raises
  if is_decoder = false ∧ a.seq_len_encoder.isNone then
    errFwd (PyError.typeError ("paddle.max does not accept None"))
  else
    let gpoCount := if is_decoder then 0 else 1
    let idsPad : STensor × STensor × STensor :=
      if is_decoder then
        (idsVal a.input_ids, STensor.pyNone, STensor.pyNone)
      else
        match a.seq_len_encoder with
        | some seq =>
          let r := remove_padding gpoSym (idsVal a.input_ids) seq
          (r.1, r.2.1, r.2.2)
        | none => (STensor.pyNone, STensor.pyNone, STensor.pyNone)  -- unreachable
    let ids_remove_padding := idsPad.1
    let padding_offset := idsPad.2.1
    let cum_offsets := idsPad.2.2
    -- lines 283-285
    let inputs_embeds1 :=
      if inputs_embeds0 = STensor.pyNone then STensor.wte ids_remove_padding
      else inputs_embeds0
    let hidden_states := inputs_embeds1
    -- line 288: bool 4D mask
    let boolMask := get_masks input_shape.1 input_shape.2 past_length a.attention_mask
    -- lines 289-292: dtype 4D mask
    let zero := zerosLike boolMask
    let neg_inf := fullLike boolMask cfg.finfoMin
    let attention_mask := paddleWhere boolMask zero neg_inf
    -- lines 297-299
    let presents : Option PyOut := if use_cache then some PyOut.presentsTup else none
    let all_hidden_states0 : Option (List STensor) :=
      if output_hidden_states then some [] else none
    let all_self_attentions : Option PyOut :=
      if output_attentions then some PyOut.attnsTup else none
    -- line 301
    let seq_lens := if is_decoder then a.seq_len_decoder else a.seq_len_encoder
    -- lines 303-305
    let position_offset : Nat :=
      if is_decoder = false ∧ a.pre_caches.isSome then 128 else 0
    -- lines 307-309: fused_get_rotary_embedding
    let new_rope := STensor.rope position_offset
    let rotaryCalls := [({ position_offset := position_offset } : RotCall)]
    -- lines 311-325: the fused transformer block call
    let blockArgs : BlockCall :=
      { input_ids := idsVal a.input_ids
        hidden_states := hidden_states
        cum_offsets := cum_offsets
        padding_offset := padding_offset
        attn_mask := attention_mask  -- paddle.cast to the hidden dtype: identity
        caches := a.cache_kvs
        pre_caches := a.pre_caches
        pre_caches_length := position_offset
        seq_lens := seq_lens
        rotary_embs := new_rope
        rotary_emb_dims := 1
        time_step := if is_decoder then some ((attention_mask.t : Int) - 1) else none }
    let hidden_states := STensor.blockOut
    -- lines 327-328
    let hidden_states := STensor.lnf hidden_states
    let hidden_states := STensor.reshapeOut hidden_states input_shape.1 input_shape.2
    -- lines 330-331
    let all_hidden_states : Option (List STensor) :=
      if output_hidden_states then some ((all_hidden_states0.getD []) ++ [hidden_states])
      else all_hidden_states0
    -- lines 333-341
    let result : FwdOutput :=
      if return_dict = false then
        FwdOutput.tuple
          (([some (PyOut.tensor hidden_states),
             presents,
             all_hidden_states.map (fun xs => PyOut.hiddenStatesTup xs),
             all_self_attentions]).filterMap id)
      else
        FwdOutput.modelOutput
          { last_hidden_state := hidden_states
            past_key_values := presents
            hidden_states := all_hidden_states.map (fun xs => PyOut.hiddenStatesTup xs)
            attentions := all_self_attentions }
    { result := Except.ok result, rotaryCalls := rotaryCalls,
      blockCalls := [blockArgs], gpoCalls := gpoCount }

/-- `QWenInferenceModel.forward` (modeling.py lines 230-341). -/
def forward (cfg : Config) (a : Args) : Fwd :=
  -- lines 248-249
  let past_key_values := a.cache
  let is_decoder := past_key_values.isSome
  -- lines 251-254: mutually-exclusive / required argument check
  if a.input_ids.isSome && a.inputs_embeds.isSome then
    errFwd (PyError.valueError
      ("You cannot specify both input_ids and inputs_embeds at the same time"))
  else if a.input_ids.isNone && a.inputs_embeds.isNone then
    errFwd (PyError.valueError ("You have to specify either input_ids or inputs_embeds"))
  else
    -- lines 256-261
    let output_attentions := a.output_attentions.getD cfg.output_attentions
    let output_hidden_states := a.output_hidden_states.getD cfg.output_hidden_states
    let use_cache := a.use_cache.getD cfg.use_cache
    let return_dict := a.return_dict.getD cfg.use_return_dict
    -- lines 263-268
    let input_shape := fwdInputShape a
    let inputs_embeds0 : STensor :=
      match a.inputs_embeds with
      | some e => STensor.embedsReshaped (e.bsz * e.seqLen) e.hidden
      | none => STensor.pyNone
    -- lines 270-274
    match past_key_values with
    | none =>
      -- `past_length = 0`, then
      -- `past_key_values = tuple([None] * len(self.config.num_hidden_layers))`:
      -- `len` of the `int` `num_hidden_layers` raises `TypeError`
      match pyLen (PyObj.int (Int.ofNat cfg.num_hidden_layers)) with
      | Except.error e => errFwd e
      | Except.ok _ =>
        forwardBody cfg a input_shape inputs_embeds0 use_cache output_attentions
          output_hidden_states return_dict is_decoder 0
    | some c =>
      forwardBody cfg a input_shape inputs_embeds0 use_cache output_attentions
        output_hidden_states return_dict is_decoder c.pastLen

end QWenInferenceModel

/-- `outputs[0]` in modeling.py line 472: the first tuple element, or the
`last_hidden_state` field of a `BaseModelOutputWithPast`. -/
def fwdFirst : FwdOutput → STensor
  | FwdOutput.tuple (PyOut.tensor x :: _) => x
  | FwdOutput.tuple _ => STensor.blockOut  -- unreachable: the first element is the hidden state
  | FwdOutput.modelOutput o => o.last_hidden_state

/-- `outputs[1:]` in modeling.py line 486 (only taken on the tuple form; the
record form lists its non-`None` trailing fields). -/
def fwdRest : FwdOutput → List PyOut
  | FwdOutput.tuple items => items.tail
  | FwdOutput.modelOutput o =>
      ([o.past_key_values, o.hidden_states, o.attentions]).filterMap id

/-- Accessors used by modeling.py lines 492-494 (only reached on the record
form; the tuple fallbacks are unreachable). -/
def fwdPkv : FwdOutput → Option PyOut
  | FwdOutput.modelOutput o => o.past_key_values
  | FwdOutput.tuple _ => none

def fwdHidden : FwdOutput → Option PyOut
  | FwdOutput.modelOutput o => o.hidden_states
  | FwdOutput.tuple _ => none

def fwdAttns : FwdOutput → Option PyOut
  | FwdOutput.modelOutput o => o.attentions
  | FwdOutput.tuple _ => none

/-- The `CausalLMOutputWithPast` record (modeling.py lines 489-495). -/
structure CausalOut where
  loss : Option STensor
  logits : STensor
  past_key_values : Option PyOut
  hidden_states : Option PyOut
  attentions : Option PyOut
deriving DecidableEq, Repr

/-- Value returned by a completed `QWenForCausalLMInferenceModel.forward`. -/
inductive ClmOutput where
  | tuple (items : List PyOut)
  | causalLM (o : CausalOut)
deriving DecidableEq, Repr

instance : Inhabited ClmOutput := ⟨ClmOutput.tuple []⟩

/-- Arguments of `QWenForCausalLMInferenceModel.forward`. -/
structure ClmArgs where
  input_ids : Option IdsShape
  position_ids : Option STensor
  attention_mask : PaddingMask
  inputs_embeds : Option EmbShape
  use_cache : Option Bool
  cache : Option CacheKV
  cache_kvs : Option STensor
  pre_caches : Option STensor
  seq_len_encoder : Option (List Int)
  seq_len_decoder : Option (List Int)
  labels : Option STensor
  output_attentions : Option Bool
  output_hidden_states : Option Bool
  return_dict : Option Bool

/-- The argument record handed to `self.qwen(...)` in modeling.py lines
455-470, with the three flags already resolved against the config. -/
def clmInnerArgs (cfg : Config) (a : ClmArgs) : Args :=
  { input_ids := a.input_ids
    position_ids := a.position_ids
    attention_mask := a.attention_mask
    inputs_embeds := a.inputs_embeds
    use_cache := a.use_cache
    cache_kvs := a.cache_kvs
    pre_caches := a.pre_caches
    seq_len_encoder := a.seq_len_encoder
    seq_len_decoder := a.seq_len_decoder
    output_attentions := some (a.output_attentions.getD cfg.output_attentions)
    output_hidden_states := some (a.output_hidden_states.getD cfg.output_hidden_states)
    return_dict := some (a.return_dict.getD cfg.use_return_dict)
    cache := a.cache }

/-- `tensor_parallel_output` as computed in modeling.py lines 476-478. -/
def clmTPO (cfg : Config) (a : ClmArgs) : Bool :=
  cfg.tensor_parallel_output && a.labels.isSome && decide (1 < cfg.tensor_parallel_degree)

namespace QWenForCausalLMInferenceModel

/-- `QWenForCausalLMInferenceModel.forward` (modeling.py lines 431-495):
call the wrapped model, project its hidden states through `lm_head`, compute
the loss when `labels` is given, and assemble the tuple or record result.
An exception from the wrapped model propagates. -/
def forward (cfg : Config) (a : ClmArgs) : Except PyError ClmOutput :=
  let return_dict := a.return_dict.getD cfg.use_return_dict
  match (QWenInferenceModel.forward cfg (clmInnerArgs cfg a)).result with
  | Except.error e => Except.error e
  | Except.ok outputs =>
    -- line 472
    let hidden_states := fwdFirst outputs
    -- lines 476-479
    let lm_logits := STensor.lmHead hidden_states (clmTPO cfg a)
    -- lines 481-483
    let loss : Option STensor := a.labels.map (fun lbl => STensor.criterion lm_logits lbl)
    -- lines 485-487
    if return_dict = false then
      let output : List PyOut := PyOut.tensor lm_logits :: fwdRest outputs
      Except.ok (ClmOutput.tuple
        (match loss with
         | some l => PyOut.tensor l :: output
         | none => output))
    else
      -- lines 489-495
      Except.ok (ClmOutput.causalLM
        { loss := loss
          logits := lm_logits
          past_key_values := fwdPkv outputs
          hidden_states := fwdHidden outputs
          attentions := fwdAttns outputs })

end QWenForCausalLMInferenceModel

/-- `(m - 1) * 1e4` applied elementwise to a mask tensor (modeling.py lines
412 and 417); the float scalar `1e4` is the exact integer `10000`. -/
def scaleMask (m : ValTensor4 Int) : ValTensor4 Int :=
  { m with entry := fun i j q k => (m.entry i j q k - 1) * 10000 }

/-- Arguments of `QWenForCausalLMInferenceModel.prepare_inputs_for_generation`:
the seven positional parameters, then the five `kwargs` entries the method
reads. -/
structure GenArgs where
  input_ids : STensor
  cache_kvs : STensor
  seq_len_encoder : Option (List Int)
  seq_len_decoder : Option (List Int)
  tgt_ids : STensor
  tgt_pos : STensor
  tgt_generation_mask : ValTensor4 Int
  position_ids : Option STensor
  attention_mask : Option (ValTensor4 Int)
  cache : Option STensor
  pre_caches : Option STensor
  inputs_embeds : Option STensor

/-- The `model_inputs` dict built by `prepare_inputs_for_generation`
(modeling.py lines 418-428). -/
structure ModelInputs where
  input_ids : STensor
  inputs_embeds : Option STensor
  position_ids : Option STensor
  attention_mask : Option (ValTensor4 Int)
  cache_kvs : STensor
  seq_len_encoder : Option (List Int)
  seq_len_decoder : Option (List Int)
  cache : Option STensor
  pre_caches : Option STensor

namespace QWenForCausalLMInferenceModel

/-- `QWenForCausalLMInferenceModel.prepare_inputs_for_generation`
(modeling.py lines 393-429).  In the decoder phase (`cache` given) the
inputs switch to the `tgt_*` tensors and `inputs_embeds` is cleared; in the
encoder phase the provided `attention_mask` is rescaled (raising `TypeError`
if it is `None`, since `None - 1` is unsupported). -/
def prepare_inputs_for_generation (g : GenArgs) : Except PyError ModelInputs :=
  match g.cache with
  | some c =>
    Except.ok
      { input_ids := g.tgt_ids
        inputs_embeds := none  -- make inputs_embeds be none in decoder phase
        position_ids := some g.tgt_pos
        attention_mask := some (scaleMask g.tgt_generation_mask)
        cache_kvs := g.cache_kvs
        seq_len_encoder := g.seq_len_encoder
        seq_len_decoder := g.seq_len_decoder
        cache := some c
        pre_caches := g.pre_caches }
  | none =>
    match g.attention_mask with
    | none => Except.error (PyError.typeError ("unsupported operand type for sub"))
    | some m =>
      Except.ok
        { input_ids := g.input_ids
          inputs_embeds := g.inputs_embeds
          position_ids := g.position_ids
          attention_mask := some (scaleMask m)
          cache_kvs := g.cache_kvs
          seq_len_encoder := g.seq_len_encoder
          seq_len_decoder := g.seq_len_decoder
          cache := none
          pre_caches := g.pre_caches }

end QWenForCausalLMInferenceModel

/-- Symbolic pretrained-weight tensors for `set_state_dict`: a raw entry of
the state dict, or `np.concatenate([a, b], axis=-1)` of two of them.
`paddle.to_tensor` preserves the value and is modelled as the identity. -/
inductive PTensor where
  | raw (key : String)
  | concatLastAxis (a b : PTensor)
deriving DecidableEq, Repr

/-- `paddle.to_tensor` (value-preserving conversion, identity here). -/
def to_tensor (t : PTensor) : PTensor := t

/-- The packed parameter slots that `QWenInferenceModel.set_state_dict`
fills: the embedding table, the final norm scale, and the per-layer lists of
the fused transformer block. -/
structure QWenSlots where
  wte_weight : PTensor
  ln_f_weight : PTensor
  ln_scales : List PTensor
  qkv_weights : List PTensor
  qkv_biases : List PTensor
  linear_weights : List PTensor
  ffn_ln_scales : List PTensor
  ffn1_weights : List PTensor
  ffn2_weights : List PTensor

namespace QWenInferenceModel

/-- `QWenInferenceModel.set_state_dict` (modeling.py lines 156-192): assign
`wte` and `ln_f`, then for each layer index fill the seven per-layer slots
from the correspondingly named state-dict entries; `ffn1_weights` gets the
concatenation of `mlp.w1.weight` and `mlp.w2.weight` along the last axis. -/
def set_state_dict (num_layers : Nat) (state_dict : String → PTensor) : QWenSlots :=
  { wte_weight := to_tensor (state_dict ("qwen.wte.weight"))
    ln_f_weight := to_tensor (state_dict ("qwen.ln_f.weight"))
    ln_scales := (List.range num_layers).map (fun idx =>
      to_tensor (state_dict ("qwen.h." ++ toString idx ++ ".ln_1.weight")))
    qkv_weights := (List.range num_layers).map (fun idx =>
      to_tensor (state_dict ("qwen.h." ++ toString idx ++ ".attn.c_attn.weight")))
    qkv_biases := (List.range num_layers).map (fun idx =>
      to_tensor (state_dict ("qwen.h." ++ toString idx ++ ".attn.c_attn.bias")))
    linear_weights := (List.range num_layers).map (fun idx =>
      to_tensor (state_dict ("qwen.h." ++ toString idx ++ ".attn.c_proj.weight")))
    ffn_ln_scales := (List.range num_layers).map (fun idx =>
      to_tensor (state_dict ("qwen.h." ++ toString idx ++ ".ln_2.weight")))
    ffn1_weights := (List.range num_layers).map (fun idx =>
      to_tensor (PTensor.concatLastAxis
        (state_dict ("qwen.h." ++ toString idx ++ ".mlp.w1.weight"))
        (state_dict ("qwen.h." ++ toString idx ++ ".mlp.w2.weight"))))
    ffn2_weights := (List.range num_layers).map (fun idx =>
      to_tensor (state_dict ("qwen.h." ++ toString idx ++ ".mlp.c_proj.weight"))) }

end QWenInferenceModel

/-! ### Concrete fixtures used to evaluate the model on closed inputs -/

/-- A small concrete configuration (2 layers, fp16-like dtype minimum). -/
def cfg0 : Config :=
  { num_hidden_layers := 2, output_attentions := false, output_hidden_states := false,
    use_cache := true, use_return_dict := false, tensor_parallel_output := false,
    tensor_parallel_degree := 1, finfoMin := -65504 }

/-- An encoder-phase call: `input_ids` given, `inputs_embeds` and
`kwargs["cache"]` absent, `pre_caches` absent. -/
def argsEnc1 : Args :=
  { input_ids := some ⟨1, 2⟩, position_ids := none, attention_mask := PaddingMask.noMask,
    inputs_embeds := none, use_cache := none, cache_kvs := none, pre_caches := none,
    seq_len_encoder := some [2], seq_len_decoder := none, output_attentions := none,
    output_hidden_states := none, return_dict := none, cache := none }

/-- An encoder-phase call with `pre_caches` provided. -/
def argsEnc2 : Args := { argsEnc1 with pre_caches := some (STensor.leaf 0) }

/-- A decoder-phase call: `kwargs["cache"]` provided with `past_length = 3`. -/
def argsDec : Args :=
  { argsEnc1 with cache := some ⟨3⟩, seq_len_decoder := some [1] }

/-- A call providing both `input_ids` and `inputs_embeds`. -/
def argsBoth : Args := { argsEnc1 with inputs_embeds := some ⟨1, 2, 4⟩ }

/-- A call providing neither `input_ids` nor `inputs_embeds`. -/
def argsNeither : Args := { argsEnc1 with input_ids := none }

/-! ### Claims -/

/-- Claim C1 (code bug): the spec says the wrapper raises nothing beyond the
input-presence validation, but the encoder-phase path (`kwargs` cache absent)
executes `tuple([None] * len(self.config.num_hidden_layers))`, applying `len`
to the `int` field `num_hidden_layers`, which raises `TypeError`.  Evaluating
the embedded `forward` at a validation-passing encoder-phase input yields
that `TypeError`, not a completed call. -/
theorem C1_encoder_phase_raises :
    (QWenInferenceModel.forward cfg0 argsEnc1).result =
      Except.error (PyError.typeError ("object of type int has no len")) := rfl

/-- Claim C7 (code bug): the claim says the rotary-embedding operator is
called exactly once with position offset 128 whenever the call is in the
encoder phase with `pre_caches` present; in fact every encoder-phase call
raises `TypeError` at the `len(self.config.num_hidden_layers)` line before
reaching the operator, so it is called zero times there. -/
theorem C7_encoder_rotary_not_called :
    (QWenInferenceModel.forward cfg0 argsEnc2).rotaryCalls = [] ∧
    (QWenInferenceModel.forward cfg0 argsEnc2).result =
      Except.error (PyError.typeError ("object of type int has no len")) :=
  ⟨rfl, rfl⟩

/-- Claim C2: `QWenInferenceModel.forward` raises `ValueError` iff
`input_ids` and `inputs_embeds` are both provided or both absent; when it
does, no external operator has been invoked (the raise precedes all tensor
computation); and with exactly one of the two provided this check raises no
`ValueError`. -/
theorem C2_input_presence_check (cfg : Config) (a : Args) :
    ((∃ msg, (QWenInferenceModel.forward cfg a).result =
        Except.error (PyError.valueError msg)) ↔
      ((a.input_ids.isSome = true ∧ a.inputs_embeds.isSome = true) ∨
       (a.input_ids.isNone = true ∧ a.inputs_embeds.isNone = true))) ∧
    (∀ msg, (QWenInferenceModel.forward cfg a).result =
        Except.error (PyError.valueError msg) →
      (QWenInferenceModel.forward cfg a).rotaryCalls = [] ∧
      (QWenInferenceModel.forward cfg a).blockCalls = [] ∧
      (QWenInferenceModel.forward cfg a).gpoCalls = 0) := by
  rcases hids : a.input_ids with _ | ids <;> rcases hemb : a.inputs_embeds with _ | emb <;>
    rcases hc : a.cache with _ | c <;>
      simp [QWenInferenceModel.forward, QWenInferenceModel.forwardBody, errFwd, pyLen,
        hids, hemb, hc]

/-- Closed witness for C2: with both inputs provided the check raises a
`ValueError`. -/
theorem C2_input_presence_check_witness :
    ∃ msg, (QWenInferenceModel.forward cfg0 argsBoth).result =
      Except.error (PyError.valueError msg) :=
  (C2_input_presence_check cfg0 argsBoth).1.mpr (Or.inl ⟨rfl, rfl⟩)

/-- The causal part of `get_masks`: with no padding mask restriction, the
entry at `(i, j, q, k)` is true exactly when `k ≤ q + past_length`. -/
theorem get_masks_entry_noMask (b s p i j q k : Nat) :
    (QWenInferenceModel.get_masks b s p PaddingMask.noMask).entry i j q k =
      decide (k ≤ q + p) := by
  unfold QWenInferenceModel.get_masks
  by_cases hp : 0 < p <;>
    simp [andBool4, concatLast, paddleTril, onesBool4, hp]
  · by_cases hkp : k < p
    · have h1 : k ≤ q + p := by omega
      simp [hkp, h1]
    · by_cases hkq : k - p ≤ q
      · have h1 : k ≤ q + p := by omega
        simp [hkp, hkq, h1]
      · have h1 : ¬ k ≤ q + p := by omega
        simp [hkp, hkq, h1]
  · have hp0 : p = 0 := by omega
    subst hp0
    by_cases hkq : k ≤ q <;> simp [hkq]

/-- With a 2-D padding mask, each `get_masks` entry is the causal bit
conjoined with the broadcast padding bit. -/
theorem get_masks_entry_mask2 (b s p i j q k : Nat) (m : Nat → Nat → Bool) :
    (QWenInferenceModel.get_masks b s p (PaddingMask.mask2 m)).entry i j q k =
      (decide (k ≤ q + p) && m i k) := by
  unfold QWenInferenceModel.get_masks
  by_cases hp : 0 < p <;>
    simp [andBool4, concatLast, paddleTril, onesBool4, hp]
  · by_cases hkp : k < p
    · have h1 : k ≤ q + p := by omega
      simp [hkp, h1]
    · simp [hkp]
  · have hp0 : p = 0 := by omega
    subst hp0
    simp

/-- Claim C3: for `b ≥ 1`, `s ≥ 1`, `p ≥ 0` and in-range indices,
`get_masks` with no padding mask is a boolean tensor of shape
`[b, 1, s, s+p]` whose `(i, 0, q, k)` entry is true iff `k ≤ q + p`, and
with a 2-D padding mask the result is that causal mask AND the padding mask
broadcast over the query axis. -/
theorem C3_get_masks_causal_padding (b s p : Nat) (hb : 1 ≤ b) (hs : 1 ≤ s)
    (i q k : Nat) (hi : i < b) (hq : q < s) (hk : k < s + p) :
    (QWenInferenceModel.get_masks b s p PaddingMask.noMask).b = b ∧
    (QWenInferenceModel.get_masks b s p PaddingMask.noMask).c = 1 ∧
    (QWenInferenceModel.get_masks b s p PaddingMask.noMask).s = s ∧
    (QWenInferenceModel.get_masks b s p PaddingMask.noMask).t = s + p ∧
    ((QWenInferenceModel.get_masks b s p PaddingMask.noMask).entry i 0 q k =
      decide (k ≤ q + p)) ∧
    ∀ m : Nat → Nat → Bool,
      (QWenInferenceModel.get_masks b s p (PaddingMask.mask2 m)).t = s + p ∧
      (QWenInferenceModel.get_masks b s p (PaddingMask.mask2 m)).entry i 0 q k =
        (decide (k ≤ q + p) && m i k) := by
  refine ⟨?_, ?_, ?_, ?_, get_masks_entry_noMask b s p i 0 q k,
    fun m => ⟨?_, get_masks_entry_mask2 b s p i 0 q k m⟩⟩ <;>
  · unfold QWenInferenceModel.get_masks
    by_cases hp : 0 < p <;>
      simp [andBool4, concatLast, paddleTril, onesBool4, hp] <;> omega

/-- Closed witness for C3 at `b = 1`, `s = 2`, `p = 1`, index `(0,0,1,2)`. -/
theorem C3_get_masks_causal_padding_witness :
    (QWenInferenceModel.get_masks 1 2 1 PaddingMask.noMask).entry 0 0 1 2 =
      decide (2 ≤ 1 + 1) :=
  (C3_get_masks_causal_padding 1 2 1 (by decide) (by decide) 0 1 2
    (by decide) (by decide) (by decide)).2.2.2.2.1

/-- Claim C4: `set_state_dict` maps every named pretrained weight into its
packed slot, and `ffn1_weights[idx]` gets the last-axis concatenation of
`mlp.w1.weight` and `mlp.w2.weight`. -/
theorem C4_set_state_dict_mapping (n : Nat) (sd : String → PTensor) (idx : Nat)
    (h : idx < n) :
    (QWenInferenceModel.set_state_dict n sd).wte_weight = sd ("qwen.wte.weight") ∧
    (QWenInferenceModel.set_state_dict n sd).ln_f_weight = sd ("qwen.ln_f.weight") ∧
    (QWenInferenceModel.set_state_dict n sd).ln_scales[idx]? =
      some (sd ("qwen.h." ++ toString idx ++ ".ln_1.weight")) ∧
    (QWenInferenceModel.set_state_dict n sd).qkv_weights[idx]? =
      some (sd ("qwen.h." ++ toString idx ++ ".attn.c_attn.weight")) ∧
    (QWenInferenceModel.set_state_dict n sd).qkv_biases[idx]? =
      some (sd ("qwen.h." ++ toString idx ++ ".attn.c_attn.bias")) ∧
    (QWenInferenceModel.set_state_dict n sd).linear_weights[idx]? =
      some (sd ("qwen.h." ++ toString idx ++ ".attn.c_proj.weight")) ∧
    (QWenInferenceModel.set_state_dict n sd).ffn_ln_scales[idx]? =
      some (sd ("qwen.h." ++ toString idx ++ ".ln_2.weight")) ∧
    (QWenInferenceModel.set_state_dict n sd).ffn2_weights[idx]? =
      some (sd ("qwen.h." ++ toString idx ++ ".mlp.c_proj.weight")) ∧
    (QWenInferenceModel.set_state_dict n sd).ffn1_weights[idx]? =
      some (PTensor.concatLastAxis
        (sd ("qwen.h." ++ toString idx ++ ".mlp.w1.weight"))
        (sd ("qwen.h." ++ toString idx ++ ".mlp.w2.weight"))) := by
  unfold QWenInferenceModel.set_state_dict to_tensor
  refine ⟨rfl, rfl, ?_, ?_, ?_, ?_, ?_, ?_, ?_⟩ <;>
    simp [List.getElem?_map, List.getElem?_range, h]

/-- Closed witness for C4 at two layers, `idx = 1`, `sd = PTensor.raw`. -/
theorem C4_set_state_dict_mapping_witness :
    (QWenInferenceModel.set_state_dict 2 PTensor.raw).ffn1_weights[1]? =
      some (PTensor.concatLastAxis (PTensor.raw ("qwen.h.1.mlp.w1.weight"))
        (PTensor.raw ("qwen.h.1.mlp.w2.weight"))) := by
  have h := (C4_set_state_dict_mapping 2 PTensor.raw 1 (by decide)).2.2.2.2.2.2.2.2
  exact h.trans (by decide)

/-- Length of inclusive prefix sums. -/
theorem cumsumFrom_length (acc : Int) (xs : List Int) :
    (cumsumFrom acc xs).length = xs.length := by
  induction xs generalizing acc with
  | nil => rfl
  | cons x xs ih => simp [cumsumFrom, ih]

/-- Entry `i` of the inclusive prefix sums is the accumulator plus the sum of
the first `i + 1` elements. -/
theorem cumsumFrom_getElem (xs : List Int) (acc : Int) (i : Nat)
    (h : i < xs.length) :
    (cumsumFrom acc xs)[i]? = some (acc + (xs.take (i + 1)).sum) := by
  induction xs generalizing acc i with
  | nil => simp at h
  | cons x xs ih =>
    cases i with
    | zero => simp [cumsumFrom]
    | succ n =>
      simp only [cumsumFrom, List.getElem?_cons_succ]
      rw [ih (acc + x) n (by simpa using h)]
      simp [add_assoc]

/-- Entry `i` of `paddle.cumsum` is the sum of the first `i + 1` elements. -/
theorem cumsum_getElem (xs : List Int) (i : Nat) (h : i < xs.length) :
    (cumsum xs)[i]? = some ((xs.take (i + 1)).sum) := by
  have hc := cumsumFrom_getElem xs 0 i h
  simpa [cumsum] using hc

/-- `paddle.max` bounds every element. -/
theorem le_paddleMax (xs : List Int) (x : Int) (hx : x ∈ xs) : x ≤ paddleMax xs := by
  induction xs with
  | nil => simp at hx
  | cons y ys ih =>
    cases ys with
    | nil =>
      simp at hx
      simp [paddleMax, hx]
    | cons z zs =>
      rw [show paddleMax (y :: z :: zs) = max y (paddleMax (z :: zs)) from rfl]
      rcases List.mem_cons.mp hx with h | h
      · exact h ▸ le_max_left _ _
      · exact le_trans (ih h) (le_max_right _ _)

/-- `paddle.max` of a non-empty vector is one of its elements. -/
theorem paddleMax_mem (xs : List Int) (h : xs ≠ []) : paddleMax xs ∈ xs := by
  induction xs with
  | nil => exact absurd rfl h
  | cons y ys ih =>
    cases ys with
    | nil => simp [paddleMax]
    | cons z zs =>
      rw [show paddleMax (y :: z :: zs) = max y (paddleMax (z :: zs)) from rfl]
      rcases le_total y (paddleMax (z :: zs)) with hle | hle
      · rw [max_eq_right hle]
        exact List.mem_cons_of_mem _ (ih (by simp))
      · rw [max_eq_left hle]
        exact List.mem_cons_self _ _

/-- Claim C6: for every non-empty integer vector `seq`, `remove_padding`
computes `token_num` as the sum of `seq`, builds `cum_offsets_now` whose
`i`-th entry is the sum over `j ≤ i` of `max(seq) - seq[j]`, passes both
(with `input_ids` and `seq`) to the external padding-offset operator, and
returns the operator outputs as
`(ids_remove_padding, padding_offset, cum_offsets)`. -/
theorem C6_remove_padding_offsets {α β : Type}
    (gpo : α → List Int → Int → List Int → β × β × β)
    (input_ids : α) (seq : List Int) (hne : seq ≠ []) (i : Nat)
    (hi : i < seq.length) :
    QWenInferenceModel.remove_padding gpo input_ids seq =
      ((gpo input_ids (QWenInferenceModel.cum_offsets_now seq)
          (QWenInferenceModel.token_num seq) seq).1,
       (gpo input_ids (QWenInferenceModel.cum_offsets_now seq)
          (QWenInferenceModel.token_num seq) seq).2.2,
       (gpo input_ids (QWenInferenceModel.cum_offsets_now seq)
          (QWenInferenceModel.token_num seq) seq).2.1) ∧
    QWenInferenceModel.token_num seq = seq.sum ∧
    (QWenInferenceModel.cum_offsets_now seq).length = seq.length ∧
    (QWenInferenceModel.cum_offsets_now seq)[i]? =
      some (((seq.take (i + 1)).map (fun x => paddleMax seq - x)).sum) ∧
    paddleMax seq ∈ seq ∧
    (∀ x ∈ seq, x ≤ paddleMax seq) := by
  refine ⟨rfl, rfl, ?_, ?_, paddleMax_mem seq hne, fun x hx => le_paddleMax seq x hx⟩
  · simp [QWenInferenceModel.cum_offsets_now, cumsum, cumsumFrom_length]
  · rw [QWenInferenceModel.cum_offsets_now,
      cumsum_getElem _ i (by simpa using hi), List.map_take]

/-- Closed witness for C6 at `seq = [2, 3, 1]`, `i = 1`: the cumulative
offset is `(3-2) + (3-3) = 1`. -/
theorem C6_remove_padding_offsets_witness :
    (QWenInferenceModel.cum_offsets_now ([2, 3, 1] : List Int))[1]? = some 1 := by
  have h := (C6_remove_padding_offsets
    (fun (_ : Nat) (c : List Int) (t : Int) (_ : List Int) => (t, t, t)) 0
    ([2, 3, 1] : List Int) (by decide) 1 (by decide)).2.2.2.1
  exact h.trans (by decide)

/-- Claim C8: for every completed `forward` call, the `past_key_values` of
the record result is the empty tuple when `use_cache` is true and `None`
when it is false; in the tuple result, the empty `presents` tuple is the
second element when `use_cache` is true and is omitted when false. -/
theorem C8_presents_empty (cfg : Config) (a : Args) (out : FwdOutput)
    (h : (QWenInferenceModel.forward cfg a).result = Except.ok out) :
    (match out with
     | FwdOutput.modelOutput o =>
         o.past_key_values =
           if a.use_cache.getD cfg.use_cache then some PyOut.presentsTup else none
     | FwdOutput.tuple items =>
         (a.use_cache.getD cfg.use_cache = true → items[1]? = some PyOut.presentsTup) ∧
         (a.use_cache.getD cfg.use_cache = false → PyOut.presentsTup ∉ items)) := by
  rcases hids : a.input_ids with _ | ids <;> rcases hemb : a.inputs_embeds with _ | emb <;>
    rcases hc : a.cache with _ | c <;>
    cases hrd : a.return_dict.getD cfg.use_return_dict <;>
    cases huc : a.use_cache.getD cfg.use_cache <;>
    cases hoh : a.output_hidden_states.getD cfg.output_hidden_states <;>
    cases hoa : a.output_attentions.getD cfg.output_attentions <;>
    simp [QWenInferenceModel.forward, QWenInferenceModel.forwardBody, errFwd, pyLen,
      hids, hemb, hc, hrd, huc, hoh, hoa] at h <;>
    (subst h; simp [huc])

/-- The decoder-phase fixture with `use_cache = False`, `return_dict = False`. -/
def argsDecNoUC : Args :=
  { argsDec with use_cache := some false, return_dict := some false }

/-- Closed witness for C8 at a completed decoder-phase call with
`use_cache = False`: the tuple contains no `presents` entry. -/
theorem C8_presents_empty_witness :
    PyOut.presentsTup ∉
      [PyOut.tensor (STensor.reshapeOut (STensor.lnf STensor.blockOut) 1 2)] := by
  have h := C8_presents_empty cfg0 argsDecNoUC
    (FwdOutput.tuple [PyOut.tensor (STensor.reshapeOut (STensor.lnf STensor.blockOut) 1 2)])
    rfl
  exact h.2 rfl

/-- Claim C9: every `attn_mask` handed to the fused transformer block is
two-valued: `0` exactly where the boolean causal+padding mask of the call is
true, and the minimum finite value of the hidden-state dtype where it is
false. -/
theorem C9_attn_mask_two_valued (cfg : Config) (a : Args) (call : BlockCall)
    (h : call ∈ (QWenInferenceModel.forward cfg a).blockCalls) (i j q k : Nat) :
    (call.attn_mask.entry i j q k = 0 ∨ call.attn_mask.entry i j q k = cfg.finfoMin) ∧
    call.attn_mask.entry i j q k =
      (if (QWenInferenceModel.get_masks (fwdInputShape a).1 (fwdInputShape a).2
          (fwdPastLength a) a.attention_mask).entry i j q k then 0
       else cfg.finfoMin) := by
  rcases hids : a.input_ids with _ | ids <;> rcases hemb : a.inputs_embeds with _ | emb <;>
    rcases hc : a.cache with _ | c <;>
    simp [QWenInferenceModel.forward, QWenInferenceModel.forwardBody, errFwd, pyLen,
      hids, hemb, hc] at h <;>
  · rw [h]
    refine ⟨?_, by simp [paddleWhere, zerosLike, fullLike, fwdPastLength, hc]⟩
    by_cases hm : (QWenInferenceModel.get_masks (fwdInputShape a).1 (fwdInputShape a).2
        c.pastLen a.attention_mask).entry i j q k <;>
      simp [paddleWhere, zerosLike, fullLike, fwdPastLength, hc, hm]

/-- Closed witness for C9 at the concrete decoder-phase call. -/
theorem C9_attn_mask_two_valued_witness :
    ((QWenInferenceModel.forward cfg0 argsDec).blockCalls.headD default).attn_mask.entry
        0 0 0 0 = 0 ∨
    ((QWenInferenceModel.forward cfg0 argsDec).blockCalls.headD default).attn_mask.entry
        0 0 0 0 = cfg0.finfoMin := by
  have hmem : (QWenInferenceModel.forward cfg0 argsDec).blockCalls.headD default
      ∈ (QWenInferenceModel.forward cfg0 argsDec).blockCalls := by
    cases hl : (QWenInferenceModel.forward cfg0 argsDec).blockCalls with
    | nil =>
      have hlen : (QWenInferenceModel.forward cfg0 argsDec).blockCalls.length = 1 := rfl
      rw [hl] at hlen
      cases hlen
    | cons x xs => simp
  exact (C9_attn_mask_two_valued cfg0 argsDec _ hmem 0 0 0 0).1

/-- A decoder-phase argument record for the causal-LM wrapper, with labels. -/
def clmArgsDec : ClmArgs :=
  { input_ids := some ⟨1, 2⟩, position_ids := none, attention_mask := PaddingMask.noMask,
    inputs_embeds := none, use_cache := none, cache := some ⟨3⟩, cache_kvs := none,
    pre_caches := none, seq_len_encoder := some [2], seq_len_decoder := some [1],
    labels := some (STensor.leaf 7), output_attentions := none,
    output_hidden_states := none, return_dict := none }

/-- Claim C5: `QWenForCausalLMInferenceModel.forward` projects the wrapped
hidden states of the wrapped model to logits via `lm_head`; the loss exists iff `labels`
does; and the non-dict tuple starts with the loss exactly when `labels` was
provided, otherwise with the logits. -/
theorem C5_lm_head_loss (cfg : Config) (a : ClmArgs) (out : ClmOutput)
    (h : QWenForCausalLMInferenceModel.forward cfg a = Except.ok out) :
    ∃ innerOut : FwdOutput,
      (QWenInferenceModel.forward cfg (clmInnerArgs cfg a)).result =
        Except.ok innerOut ∧
      (match out with
       | ClmOutput.tuple items =>
           (a.labels = none →
             items = PyOut.tensor (STensor.lmHead (fwdFirst innerOut) (clmTPO cfg a)) ::
               fwdRest innerOut) ∧
           (∀ lbl, a.labels = some lbl →
             items = PyOut.tensor (STensor.criterion
                 (STensor.lmHead (fwdFirst innerOut) (clmTPO cfg a)) lbl) ::
               PyOut.tensor (STensor.lmHead (fwdFirst innerOut) (clmTPO cfg a)) ::
               fwdRest innerOut)
       | ClmOutput.causalLM o =>
           o.logits = STensor.lmHead (fwdFirst innerOut) (clmTPO cfg a) ∧
           o.loss = a.labels.map (fun lbl =>
             STensor.criterion (STensor.lmHead (fwdFirst innerOut) (clmTPO cfg a)) lbl)) := by
  unfold QWenForCausalLMInferenceModel.forward at h
  rcases hres : (QWenInferenceModel.forward cfg (clmInnerArgs cfg a)).result with e | innerOut
  · rw [hres] at h
    cases h
  · rw [hres] at h
    refine ⟨innerOut, rfl, ?_⟩
    rcases hlab : a.labels with _ | lbl <;>
      cases hrd : a.return_dict.getD cfg.use_return_dict <;>
        simp [hlab, hrd] at h <;> subst h <;> simp [hlab, hrd]

/-- Closed witness for C5: the concrete decoder-phase causal-LM call
completes, so the result of the wrapped model that it projects from exists. -/
theorem C5_lm_head_loss_witness :
    ∃ innerOut, (QWenInferenceModel.forward cfg0 (clmInnerArgs cfg0 clmArgsDec)).result =
      Except.ok innerOut := by
  obtain ⟨io, hio, _⟩ := C5_lm_head_loss cfg0 clmArgsDec
    ((QWenForCausalLMInferenceModel.forward cfg0 clmArgsDec).toOption.getD default) rfl
  exact ⟨io, hio⟩

/-- Claim C10: `prepare_inputs_for_generation` switches inputs by phase:
with a cache (decoder phase) the model inputs take `tgt_ids`, `tgt_pos`, the
rescaled `tgt_generation_mask`, and `inputs_embeds = None`; without a cache
(encoder phase) the given `attention_mask` is rescaled and `input_ids`,
`position_ids`, `inputs_embeds` pass through; the rescaling maps mask value
1 to 0 and 0 to -10000. -/
theorem C10_prepare_inputs_phase_switch (g : GenArgs) :
    (∀ c, g.cache = some c →
      QWenForCausalLMInferenceModel.prepare_inputs_for_generation g =
        Except.ok
          { input_ids := g.tgt_ids, inputs_embeds := none,
            position_ids := some g.tgt_pos,
            attention_mask := some (scaleMask g.tgt_generation_mask),
            cache_kvs := g.cache_kvs, seq_len_encoder := g.seq_len_encoder,
            seq_len_decoder := g.seq_len_decoder, cache := some c,
            pre_caches := g.pre_caches }) ∧
    (∀ m, g.cache = none → g.attention_mask = some m →
      QWenForCausalLMInferenceModel.prepare_inputs_for_generation g =
        Except.ok
          { input_ids := g.input_ids, inputs_embeds := g.inputs_embeds,
            position_ids := g.position_ids,
            attention_mask := some (scaleMask m),
            cache_kvs := g.cache_kvs, seq_len_encoder := g.seq_len_encoder,
            seq_len_decoder := g.seq_len_decoder, cache := none,
            pre_caches := g.pre_caches }) ∧
    (∀ (t : ValTensor4 Int) (i j q k : Nat),
      (scaleMask t).entry i j q k = (t.entry i j q k - 1) * 10000 ∧
      (t.entry i j q k = 1 → (scaleMask t).entry i j q k = 0) ∧
      (t.entry i j q k = 0 → (scaleMask t).entry i j q k = -10000)) := by
  refine ⟨?_, ?_, ?_⟩
  · intro c hc
    simp [QWenForCausalLMInferenceModel.prepare_inputs_for_generation, hc]
  · intro m hc hm
    simp [QWenForCausalLMInferenceModel.prepare_inputs_for_generation, hc, hm]
  · intro t i j q k
    refine ⟨rfl, ?_, ?_⟩ <;> intro h1 <;> simp [scaleMask, h1]

/-- A decoder-phase argument record for `prepare_inputs_for_generation`. -/
def genArgsDec : GenArgs :=
  { input_ids := STensor.inputIds, cache_kvs := STensor.leaf 1,
    seq_len_encoder := some [2], seq_len_decoder := some [1],
    tgt_ids := STensor.leaf 2, tgt_pos := STensor.leaf 3,
    tgt_generation_mask := ⟨1, 1, 1, 4, fun _ _ _ _ => 1⟩, position_ids := none,
    attention_mask := none, cache := some (STensor.leaf 4), pre_caches := none,
    inputs_embeds := none }

/-- Closed witness for C10: a mask value of 1 rescales to 0. -/
theorem C10_prepare_inputs_phase_switch_witness :
    (scaleMask genArgsDec.tgt_generation_mask).entry 0 0 0 0 = 0 :=
  ((C10_prepare_inputs_phase_switch genArgsDec).2.2
    genArgsDec.tgt_generation_mask 0 0 0 0).2.1 rfl
